import Mathlib

/-!
Verification development for the Proxmox MCP adapter (`src/index.js`).

The JavaScript source is shallowly embedded: numbers occurring in API
responses are modelled as `ℚ` (fractions such as `cpu`) or `ℕ` (byte and
second counts), JS `undefined`-able values as `Option`, and the HTTP
backend as an oracle (`Backend`) mapping each endpoint to a response.
Handlers run in a monad `M` that records the list of issued HTTP requests,
so that "makes no backend call" claims are statable.

JS-specific conventions modelled explicitly:
* `Number.prototype.toFixed(k)` picks the integer n minimising |n/10^k − x|,
  preferring the larger n on ties (ECMA-262); for the non-negative values
  the adapter formats this is ⌊x·10^k + 1/2⌋.
* template interpolation of `undefined` produces the string "undefined";
* truthiness: `undefined`, `0` and `""` are falsy.
-/

/-! ### Decimal rendering of numbers (JS `String(n)` / `toFixed`) -/

/-- The decimal digit character for `d < 10`. -/
def digitChar (d : ℕ) : Char := Char.ofNat (48 + d)

/-- Numeric value of a decimal digit character. -/
def charVal (c : Char) : ℕ := c.toNat - 48

/-- Fuel-driven most-significant-digit-first decimal expansion (structural, so
that concrete instances evaluate inside the kernel). -/
def natCharsAux : ℕ → ℕ → List Char
  | 0, _ => []
  | f + 1, n => if n < 10 then [digitChar n] else natCharsAux f (n / 10) ++ [digitChar (n % 10)]

/-- Decimal digit characters of `n`, most significant first. -/
def natChars (n : ℕ) : List Char := natCharsAux (n + 1) n

/-- JS `String(n)` for a non-negative integer. -/
def natToStr (n : ℕ) : String := String.mk (natChars n)

/-- Render `f < 100` as exactly two digits (zero padded). -/
def twoDigits (f : ℕ) : String := (if f < 10 then "0" else "") ++ natToStr f

/-- `x.toFixed(1)` for `x ≥ 0`: round half up to one decimal, always keeping
the fractional digit. -/
def jsToFixed1 (x : ℚ) : String :=
  let n := (⌊x * 10 + 1 / 2⌋).toNat
  natToStr (n / 10) ++ "." ++ natToStr (n % 10)

/-- `x.toFixed(2)` for `x ≥ 0`: round half up to two decimals, always keeping
both fractional digits. -/
def jsToFixed2 (x : ℚ) : String :=
  let n := (⌊x * 100 + 1 / 2⌋).toNat
  natToStr (n / 100) ++ "." ++ twoDigits (n % 100)

/-- `x·100` rounded half up: the value `parseFloat(x.toFixed(2))` scaled to an
integer number of hundredths. -/
def round2 (x : ℚ) : ℕ := (⌊x * 100 + 1 / 2⌋).toNat

/-- The characters of `parseFloat((n/100).toFixed(2)) + ''`: the decimal for
`n/100` with the trailing zeros (and a trailing dot) produced by the rounding
stripped. -/
def renderCentiChars (n : ℕ) : List Char :=
  let f := n % 100
  if f = 0 then natChars (n / 100)
  else if f % 10 = 0 then natChars (n / 100) ++ '.' :: natChars (f / 10)
  else natChars (n / 100) ++ '.' :: (twoDigits f).data

/-- String form of `renderCentiChars`. -/
def renderCenti (n : ℕ) : String := String.mk (renderCentiChars n)

/-! ### A decimal parser (spec side: "parseable back to a number"). -/

/-- Value of a fractional digit string: `fracVal "25" = 25/100`. -/
def fracVal : List Char → ℚ
  | [] => 0
  | c :: cs => ((charVal c : ℚ) + fracVal cs) / 10

/-- Accumulating decimal parser: integer part then optional '.' and fraction. -/
def intFrac : ℚ → List Char → ℚ
  | a, [] => a
  | a, c :: cs => if c = '.' then a + fracVal cs else intFrac (10 * a + (charVal c : ℚ)) cs

/-- Parse a plain decimal string back to a rational. -/
def parseDec (s : String) : ℚ := intFrac 0 s.data

/-! ### `formatUptime` and `formatBytes` (src/index.js lines 532–552) -/

/-- `formatUptime(seconds)`: `<d>d <h>h <m>m` / `<h>h <m>m` / `<m>m`. -/
def formatUptime (seconds : ℕ) : String :=
  let days := seconds / 86400
  let hours := (seconds % 86400) / 3600
  let minutes := (seconds % 3600) / 60
  if 0 < days then natToStr days ++ "d " ++ natToStr hours ++ "h " ++ natToStr minutes ++ "m"
  else if 0 < hours then natToStr hours ++ "h " ++ natToStr minutes ++ "m"
  else natToStr minutes ++ "m"

/-- Fuel-driven base-1024 floor logarithm (the value JS computes as
`Math.floor(Math.log(bytes) / Math.log(1024))` for a positive integer). -/
def log1024Aux : ℕ → ℕ → ℕ
  | 0, _ => 0
  | f + 1, b => if b < 1024 then 0 else log1024Aux f (b / 1024) + 1

/-- `⌊log₁₀₂₄ b⌋` for `b ≥ 1`. -/
def log1024 (b : ℕ) : ℕ := log1024Aux b b

/-- The unit table of `formatBytes`. -/
def byteSizes : List String := ["B", "KB", "MB", "GB", "TB"]

/-- `formatBytes(bytes)` (src/index.js lines 546–552); an index past the table
renders JS `undefined`. -/
def formatBytes (bytes : ℕ) : String :=
  if bytes = 0 then "0 B"
  else
    let i := log1024 bytes
    renderCenti (round2 ((bytes : ℚ) / 1024 ^ i)) ++ " " ++ byteSizes.getD i "undefined"

/-! ### Data model (Backend Resource Views, §3 of the spec) -/

/-- JS truthiness of a possibly-undefined number (`undefined` and `0` falsy). -/
def truthyN : Option ℕ → Bool
  | none => false
  | some n => n != 0

/-- JS truthiness of a possibly-undefined rational (`undefined` and `0` falsy). -/
def truthyQ : Option ℚ → Bool
  | none => false
  | some q => q != 0

/-- JS truthiness of a possibly-undefined string (`undefined` and `""` falsy). -/
def truthyS : Option String → Bool
  | none => false
  | some s => s != ""

/-- JS template interpolation of a possibly-undefined string. -/
def interp (o : Option String) : String := o.getD "undefined"

/-- `String.prototype.toUpperCase` for the ASCII strings used here. -/
def jsUpper (s : String) : String := s.map Char.toUpper

/-- A node element of the `/nodes` response. -/
structure NodeRec where
  node : String
  status : String
  uptime : Option ℕ := none
  cpu : Option ℚ := none
  mem : Option ℕ := none
  maxmem : Option ℕ := none
  maxcpu : Option ℕ := none
  loadavg : Option (List ℚ) := none
deriving DecidableEq

/-- A guest element of a qemu/lxc listing or current-status response. -/
structure VmRec where
  vmid : ℕ
  name : Option String := none
  status : String := ""
  node : Option String := none
  uptime : Option ℕ := none
  cpu : Option ℚ := none
  mem : Option ℕ := none
  maxmem : Option ℕ := none
  diskread : Option ℕ := none
  diskwrite : Option ℕ := none
  netin : Option ℕ := none
  netout : Option ℕ := none
deriving DecidableEq

/-- A guest after the handler tags it with its type and node. -/
structure TaggedVm where
  vm : VmRec
  type : String
  node : String
deriving DecidableEq

/-- A used/total pair (node status `memory` and `rootfs` sub-objects). -/
structure MemPair where
  used : ℕ
  total : ℕ
deriving DecidableEq

/-- The `/nodes/{node}/status` response. The load values are kept as their
JS-rendered strings because the handler only joins them verbatim. -/
structure StatusRec where
  uptime : Option ℕ := none
  loadavg : Option (List String) := none
  cpu : Option ℚ := none
  memory : Option MemPair := none
  rootfs : Option MemPair := none
deriving DecidableEq

/-- A storage element of a `/nodes/{node}/storage` response. -/
structure StorageRaw where
  storage : String
  type : Option String := none
  content : Option String := none
  enabled : Option ℚ := none
  used : Option ℕ := none
  total : Option ℕ := none
deriving DecidableEq

/-- A storage element after the handler tags it with its node. -/
structure StorageEntry extends StorageRaw where
  node : String
deriving DecidableEq

/-- The `/nodes/{node}/qemu/{id}/agent/exec` response. -/
structure ExecRec where
  pid : Option ℕ := none
deriving DecidableEq

/-! ### Backend client (src/index.js lines 59–99) -/

/-- An HTTP request issued by the adapter (method and path relative to the
API base). -/
structure Req where
  method : String
  path : String
deriving DecidableEq

/-- The possible outcomes of one `fetch` of an endpoint whose parsed `data`
field has type `α`: network failure, non-2xx status with its body text, a
blank body, a JSON parse failure, or success. -/
inductive Raw (α : Type) where
  | net (msg : String)
  | http (status : ℕ) (body : String)
  | emptyBody
  | badJson (msg : String)
  | good (data : α)

/-- `proxmoxRequest` error wrapping: a non-2xx response throws
`Proxmox API error: <status> - <body>` and a blank body throws
`Empty response from Proxmox API`; both are Errors (not SyntaxErrors), so the
catch block rewraps them as `Failed to connect to Proxmox: <message>`, as it
does a network failure. A JSON parse failure is a SyntaxError and becomes
`Failed to parse Proxmox API response: <message>`. On success the `data`
field is returned. -/
def proxmoxRequest {α : Type} : Raw α → Except String α
  | .net m => .error ("Failed to connect to Proxmox: " ++ m)
  | .http s b => .error ("Failed to connect to Proxmox: Proxmox API error: " ++ natToStr s ++ " - " ++ b)
  | .emptyBody => .error "Failed to connect to Proxmox: Empty response from Proxmox API"
  | .badJson m => .error ("Failed to parse Proxmox API response: " ++ m)
  | .good d => .ok d

/-- The backend oracle: one `Raw` response per endpoint, keyed by the path
parameters the adapter interpolates. -/
structure Backend where
  nodes : Raw (List NodeRec)
  nodeStatus : String → Raw StatusRec
  qemu : String → Raw (List VmRec)
  lxc : String → Raw (List VmRec)
  current : String → String → String → Raw VmRec
  agentExec : String → String → String → Raw ExecRec
  lxcExec : String → String → String → Raw (Option String)
  storage : String → Raw (List StorageRaw)
  cluster : Raw Unit

/-- Handler computations: a state of issued requests plus exception flow.
Errors preserve the request trace. -/
def M (α : Type) : Type := List Req → Except String α × List Req

/-- Monadic `pure` for `M`. -/
def M.pureM {α : Type} (a : α) : M α := fun t => (.ok a, t)

/-- Monadic `bind` for `M`: an error short-circuits but keeps the trace. -/
def M.bindM {α β : Type} (x : M α) (f : α → M β) : M β := fun t =>
  match x t with
  | (.ok a, t') => f a t'
  | (.error e, t') => (.error e, t')

instance instMonadM : Monad M where
  pure := M.pureM
  bind := M.bindM

/-- A JS `throw` inside a handler. -/
def M.throwErr {α : Type} (e : String) : M α := fun t => (.error e, t)

/-- A JS `try`/`catch` around a handler fragment. -/
def M.attempt {α : Type} (x : M α) (h : String → M α) : M α := fun t =>
  match x t with
  | (.ok a, t') => (.ok a, t')
  | (.error e, t') => h e t'

/-- One `this.proxmoxRequest(...)` call: the HTTP request is recorded and the
oracle's response is unwrapped. -/
def callApi {α : Type} (method path : String) (r : Raw α) : M α := fun t =>
  (proxmoxRequest r, t ++ [⟨method, path⟩])

/-- A Result Payload: the texts of the `content` items (each is `type: "text"`). -/
structure Payload where
  content : List String
deriving DecidableEq

/-- A single-text Result Payload. -/
def textPayload (s : String) : Payload := ⟨[s]⟩

/-- The connection configuration, reduced to the one field the handlers
branch on. -/
structure Ctx where
  allowElevated : Bool
deriving DecidableEq

/-! ### Handlers (src/index.js lines 224–530)

JS `Array.prototype.sort` (stable, in specification order) is modelled by
`List.insertionSort`; `localeCompare` on the storage/node names is modelled
by lexicographic `≤` on strings, which agrees with it on the ASCII names
involved. -/

/-- One node's block of the `list-nodes` output (lines 229–242). -/
def nodeBlock (node : NodeRec) : String :=
  let status := if node.status = "online" then "🟢" else "🔴"
  let uptime := if truthyN node.uptime then formatUptime (node.uptime.getD 0) else "N/A"
  let cpuUsage := if truthyQ node.cpu then jsToFixed1 (node.cpu.getD 0 * 100) ++ "%" else "N/A"
  let memUsage :=
    if truthyN node.mem && truthyN node.maxmem then
      formatBytes (node.mem.getD 0) ++ " / " ++ formatBytes (node.maxmem.getD 0) ++ " (" ++
        jsToFixed1 ((node.mem.getD 0 : ℚ) / (node.maxmem.getD 0 : ℚ) * 100) ++ "%)"
    else "N/A"
  let load :=
    match node.loadavg with
    | none => "N/A"
    | some l =>
      match l.head? with
      | none => "N/A"
      | some x => jsToFixed2 x
  status ++ " **" ++ node.node ++ "**\n" ++
    "   • Status: " ++ node.status ++ "\n" ++
    "   • Uptime: " ++ uptime ++ "\n" ++
    "   • CPU: " ++ cpuUsage ++ "\n" ++
    "   • Memory: " ++ memUsage ++ "\n" ++
    "   • Load: " ++ load ++ "\n\n"

/-- `getNodes` (lines 224–247). -/
def getNodes (B : Backend) : M Payload := do
  let nodes ← callApi "GET" "/nodes" B.nodes
  pure (textPayload ("🖥️  **Proxmox Cluster Nodes**\n\n" ++ String.join (nodes.map nodeBlock)))

/-- The instructional payload of the gated `node-status` operation. -/
def nodeStatusDeniedMsg : String :=
  "⚠️  **Node Status Requires Elevated Permissions**\n\nTo view detailed node status, set `PROXMOX_ALLOW_ELEVATED=true` in your .env file and ensure your API token has Sys.Audit permissions.\n\n**Current permissions**: Basic (node listing only)"

/-- `getNodeStatus` (lines 249–274). When `memory.total` (or `rootfs.total`)
is zero the JS division yields `NaN` and formats as "NaN"; `ℚ` division by
zero makes the corresponding unreachable-in-practice percentage "0.0"
instead — no claim depends on that corner. -/
def getNodeStatus (cfg : Ctx) (B : Backend) (node : Option String) : M Payload :=
  if !cfg.allowElevated then
    pure (textPayload nodeStatusDeniedMsg)
  else do
    let status ← callApi "GET" ("/nodes/" ++ interp node ++ "/status")
      (B.nodeStatus (interp node))
    let la :=
      match status.loadavg with
      | none => "N/A"
      | some l => let s := String.intercalate ", " l; if s = "" then "N/A" else s
    let memLine :=
      match status.memory with
      | none => "N/A"
      | some m =>
        formatBytes m.used ++ " / " ++ formatBytes m.total ++ " (" ++
          jsToFixed1 ((m.used : ℚ) / (m.total : ℚ) * 100) ++ "%)"
    let diskLine :=
      match status.rootfs with
      | none => "N/A"
      | some m =>
        formatBytes m.used ++ " / " ++ formatBytes m.total ++ " (" ++
          jsToFixed1 ((m.used : ℚ) / (m.total : ℚ) * 100) ++ "%)"
    pure (textPayload (
      "🖥️  **Node " ++ interp node ++ " Status**\n\n" ++
      "• **Status**: " ++ (if truthyN status.uptime then "🟢 Online" else "🔴 Offline") ++ "\n" ++
      "• **Uptime**: " ++ (if truthyN status.uptime then formatUptime (status.uptime.getD 0) else "N/A") ++ "\n" ++
      "• **Load Average**: " ++ la ++ "\n" ++
      "• **CPU Usage**: " ++ (if truthyQ status.cpu then jsToFixed1 (status.cpu.getD 0 * 100) ++ "%" else "N/A") ++ "\n" ++
      "• **Memory**: " ++ memLine ++ "\n" ++
      "• **Root Disk**: " ++ diskLine ++ "\n"))

/-- Tag a listed guest with its type and node (`{ ...vm, type, node }`). -/
def tagVm (t n : String) (vm : VmRec) : TaggedVm := ⟨vm, t, n⟩

/-- One guest's block of the `list-guests` output (lines 310–328). -/
def vmBlock (tv : TaggedVm) : String :=
  let vm := tv.vm
  let status := if vm.status = "running" then "🟢" else if vm.status = "stopped" then "🔴" else "🟡"
  let typeIcon := if tv.type = "qemu" then "🖥️" else "📦"
  let uptime := if truthyN vm.uptime then formatUptime (vm.uptime.getD 0) else "N/A"
  let cpuUsage := if truthyQ vm.cpu then jsToFixed1 (vm.cpu.getD 0 * 100) ++ "%" else "N/A"
  let memUsage :=
    if truthyN vm.mem && truthyN vm.maxmem then
      formatBytes (vm.mem.getD 0) ++ " / " ++ formatBytes (vm.maxmem.getD 0)
    else "N/A"
  let nm := if truthyS vm.name then vm.name.getD "" else "VM-" ++ natToStr vm.vmid
  status ++ " " ++ typeIcon ++ " **" ++ nm ++ "** (ID: " ++ natToStr vm.vmid ++ ")\n" ++
    "   • Node: " ++ tv.node ++ "\n" ++
    "   • Status: " ++ vm.status ++ "\n" ++
    "   • Type: " ++ jsUpper tv.type ++ "\n" ++
    (if vm.status = "running" then
      "   • Uptime: " ++ uptime ++ "\n" ++
      "   • CPU: " ++ cpuUsage ++ "\n" ++
      "   • Memory: " ++ memUsage ++ "\n"
    else "") ++ "\n"

/-- The `list-guests` output: guests sorted ascending by numeric id,
or the explicit none-found message (lines 305–329). -/
def renderVMs (vms : List TaggedVm) : String :=
  "💻 **Virtual Machines**\n\n" ++
  (if vms.length = 0 then "No virtual machines found.\n"
   else String.join ((List.insertionSort (fun a b => a.vm.vmid ≤ b.vm.vmid) vms).map vmBlock))

/-- The per-node gathering loop of `getVMs` without a node filter
(lines 292–302), including the `vm.node || node.node` fallback quirk of the
lxc branch. -/
def gatherVMs (B : Backend) (tf : String) : List NodeRec → M (List TaggedVm)
  | [] => pure []
  | n :: rest => do
    let v1 ←
      if tf = "all" ∨ tf = "qemu" then do
        let l ← callApi "GET" ("/nodes/" ++ n.node ++ "/qemu") (B.qemu n.node)
        pure (l.map (tagVm "qemu" n.node))
      else pure []
    let v2 ←
      if tf = "all" ∨ tf = "lxc" then do
        let l ← callApi "GET" ("/nodes/" ++ n.node ++ "/lxc") (B.lxc n.node)
        pure (l.map (fun vm => tagVm "lxc" (if truthyS vm.node then vm.node.getD "" else n.node) vm))
      else pure []
    let vrest ← gatherVMs B tf rest
    pure (v1 ++ v2 ++ vrest)

/-- `getVMs` (lines 276–334). With a node filter both listing endpoints are
fetched before the type filter selects which results to keep. -/
def getVMs (B : Backend) (nodeFilter typeFilter : Option String) : M Payload := do
  let tf := typeFilter.getD "all"
  if truthyS nodeFilter then
    let nf := nodeFilter.getD ""
    let nodeVMs ← callApi "GET" ("/nodes/" ++ nf ++ "/qemu") (B.qemu nf)
    let nodeLXCs ← callApi "GET" ("/nodes/" ++ nf ++ "/lxc") (B.lxc nf)
    let vms :=
      (if tf = "all" ∨ tf = "qemu" then nodeVMs.map (tagVm "qemu" nf) else []) ++
      (if tf = "all" ∨ tf = "lxc" then nodeLXCs.map (tagVm "lxc" nf) else [])
    pure (textPayload (renderVMs vms))
  else
    let nodes ← callApi "GET" "/nodes" B.nodes
    let vms ← gatherVMs B tf nodes
    pure (textPayload (renderVMs vms))

/-- `getVMStatus` (lines 336–361). -/
def getVMStatus (B : Backend) (node vmid vtype : Option String) : M Payload := do
  let t := vtype.getD "qemu"
  let vmStatus ← callApi "GET"
    ("/nodes/" ++ interp node ++ "/" ++ t ++ "/" ++ interp vmid ++ "/status/current")
    (B.current (interp node) t (interp vmid))
  let status := if vmStatus.status = "running" then "🟢" else if vmStatus.status = "stopped" then "🔴" else "🟡"
  let typeIcon := if t = "qemu" then "🖥️" else "📦"
  let nm := if truthyS vmStatus.name then vmStatus.name.getD "" else "VM-" ++ interp vmid
  pure (textPayload (
    status ++ " " ++ typeIcon ++ " **" ++ nm ++ "** (ID: " ++ interp vmid ++ ")\n\n" ++
    "• **Node**: " ++ interp node ++ "\n" ++
    "• **Status**: " ++ vmStatus.status ++ "\n" ++
    "• **Type**: " ++ jsUpper t ++ "\n" ++
    (if vmStatus.status = "running" then
      "• **Uptime**: " ++ (if truthyN vmStatus.uptime then formatUptime (vmStatus.uptime.getD 0) else "N/A") ++ "\n" ++
      "• **CPU Usage**: " ++ (if truthyQ vmStatus.cpu then jsToFixed1 (vmStatus.cpu.getD 0 * 100) ++ "%" else "N/A") ++ "\n" ++
      "• **Memory**: " ++
        (if truthyN vmStatus.mem && truthyN vmStatus.maxmem then
          formatBytes (vmStatus.mem.getD 0) ++ " / " ++ formatBytes (vmStatus.maxmem.getD 0) ++ " (" ++
            jsToFixed1 ((vmStatus.mem.getD 0 : ℚ) / (vmStatus.maxmem.getD 0 : ℚ) * 100) ++ "%)"
        else "N/A") ++ "\n" ++
      "• **Disk Read**: " ++ (if truthyN vmStatus.diskread then formatBytes (vmStatus.diskread.getD 0) else "N/A") ++ "\n" ++
      "• **Disk Write**: " ++ (if truthyN vmStatus.diskwrite then formatBytes (vmStatus.diskwrite.getD 0) else "N/A") ++ "\n" ++
      "• **Network In**: " ++ (if truthyN vmStatus.netin then formatBytes (vmStatus.netin.getD 0) else "N/A") ++ "\n" ++
      "• **Network Out**: " ++ (if truthyN vmStatus.netout then formatBytes (vmStatus.netout.getD 0) else "N/A") ++ "\n"
    else "")))

/-- The instructional payload of the gated `guest-exec` operation. -/
def execDeniedMsg (command : Option String) : String :=
  "⚠️  **VM Command Execution Requires Elevated Permissions**\n\nTo execute commands on VMs, set `PROXMOX_ALLOW_ELEVATED=true` in your .env file and ensure your API token has appropriate VM permissions.\n\n**Current permissions**: Basic (VM listing only)\n**Requested command**: `" ++ interp command ++ "`"

/-- `executeVMCommand` (lines 363–411). -/
def executeVMCommand (cfg : Ctx) (B : Backend) (node vmid command vtype : Option String) : M Payload :=
  if !cfg.allowElevated then
    pure (textPayload (execDeniedMsg command))
  else
    M.attempt
      (if vtype.getD "qemu" = "qemu" then do
        let result ← callApi "POST"
          ("/nodes/" ++ interp node ++ "/qemu/" ++ interp vmid ++ "/agent/exec")
          (B.agentExec (interp node) (interp vmid) (interp command))
        pure (textPayload (
          "💻 **Command executed on VM " ++ interp vmid ++ "**\n\n" ++
          "**Command**: `" ++ interp command ++ "`\n" ++
          "**Result**: Command submitted to guest agent\n" ++
          "**PID**: " ++ (if truthyN result.pid then natToStr (result.pid.getD 0) else "N/A") ++ "\n\n" ++
          "*Note: Use guest agent status to check command completion*"))
      else do
        let result ← callApi "POST"
          ("/nodes/" ++ interp node ++ "/lxc/" ++ interp vmid ++ "/exec")
          (B.lxcExec (interp node) (interp vmid) (interp command))
        pure (textPayload (
          "📦 **Command executed on LXC " ++ interp vmid ++ "**\n\n" ++
          "**Command**: `" ++ interp command ++ "`\n" ++
          "**Output**:\n```\n" ++ (if truthyS result then result.getD "" else "Command executed successfully") ++ "\n```")))
      (fun e => pure (textPayload (
        "❌ **Failed to execute command on VM " ++ interp vmid ++ "**\n\nError: " ++ e ++
        "\n\n*Note: Make sure the VM has guest agent installed and running*")))

/-- The deduplication key `` `${storage.storage}-${storage.node}` `` (line 437). -/
def storageKey (s : StorageEntry) : String := s.storage ++ "-" ++ s.node

/-- The `seen`-set loop of `getStorage` (lines 433–442): first occurrence of
each key wins, order preserved. -/
def dedupStorages (l : List StorageEntry) : List StorageEntry :=
  (l.foldl
    (fun acc s => if storageKey s ∈ acc.2 then acc else (acc.1 ++ [s], acc.2 ++ [storageKey s]))
    (([], []) : List StorageEntry × List String)).1

/-- One storage pool's block of the `list-storage` output (lines 444–457). -/
def storageBlock (s : StorageEntry) : String :=
  let enabled := if truthyQ s.enabled then "🟢" else "🔴"
  let usagePercent :=
    if truthyN s.total && truthyN s.used then
      jsToFixed1 ((s.used.getD 0 : ℚ) / (s.total.getD 0 : ℚ) * 100)
    else "N/A"
  enabled ++ " **" ++ s.storage ++ "**\n" ++
    "   • Node: " ++ s.node ++ "\n" ++
    "   • Type: " ++ (if truthyS s.type then s.type.getD "" else "N/A") ++ "\n" ++
    "   • Content: " ++ (if truthyS s.content then s.content.getD "" else "N/A") ++ "\n" ++
    (if truthyN s.total && truthyN s.used then
      "   • Usage: " ++ formatBytes (s.used.getD 0) ++ " / " ++ formatBytes (s.total.getD 0) ++
        " (" ++ usagePercent ++ "%)\n"
    else "") ++
    "   • Status: " ++ (if truthyQ s.enabled then "Enabled" else "Disabled") ++ "\n\n"

/-- The per-node storage gathering loop (lines 422–425). -/
def gatherStorages (B : Backend) : List NodeRec → M (List StorageEntry)
  | [] => pure []
  | n :: rest => do
    let l ← callApi "GET" ("/nodes/" ++ n.node ++ "/storage") (B.storage n.node)
    let lrest ← gatherStorages B rest
    pure (l.map (fun s => { toStorageRaw := s, node := n.node }) ++ lrest)

/-- The `.sort((a, b) => a.storage.localeCompare(b.storage))` step
(line 444): stable sort by storage name. -/
def sortStorages (l : List StorageEntry) : List StorageEntry :=
  List.insertionSort (fun a b => a.storage ≤ b.storage) l

/-- `getStorage` (lines 413–463). -/
def getStorage (B : Backend) (nodeFilter : Option String) : M Payload := do
  let storages ←
    if truthyS nodeFilter then do
      let nf := nodeFilter.getD ""
      let l ← callApi "GET" ("/nodes/" ++ nf ++ "/storage") (B.storage nf)
      pure (l.map (fun s => { toStorageRaw := s, node := nf }))
    else do
      let nodes ← callApi "GET" "/nodes" B.nodes
      gatherStorages B nodes
  pure (textPayload (
    "💾 **Storage Pools**\n\n" ++
    (if storages.length = 0 then "No storage found.\n"
     else String.join ((sortStorages (dedupStorages storages)).map storageBlock))))

/-- The accumulation loop of `cluster-status` (lines 490–500): the four
accumulators `(totalCpu, usedCpu, totalMem, usedMem)` grow only on online
nodes. -/
def clusterAccum (nodes : List NodeRec) : ℕ × ℚ × ℕ × ℕ :=
  nodes.foldl
    (fun (a : ℕ × ℚ × ℕ × ℕ) n =>
      if n.status = "online" then
        (a.1 + n.maxcpu.getD 0, a.2.1 + n.cpu.getD 0 * (n.maxcpu.getD 0 : ℚ),
         a.2.2.1 + n.maxmem.getD 0, a.2.2.2 + n.mem.getD 0)
      else a)
    (0, 0, 0, 0)

/-- `cpuPercent` (line 502): percentage to one decimal, or "N/A" on zero
capacity. -/
def cpuPercent (nodes : List NodeRec) : String :=
  if 0 < (clusterAccum nodes).1 then
    jsToFixed1 ((clusterAccum nodes).2.1 / ((clusterAccum nodes).1 : ℚ) * 100)
  else "N/A"

/-- `memPercent` (line 503): percentage to one decimal, or "N/A" on zero
capacity. -/
def memPercent (nodes : List NodeRec) : String :=
  if 0 < (clusterAccum nodes).2.2.1 then
    jsToFixed1 (((clusterAccum nodes).2.2.2 : ℚ) / ((clusterAccum nodes).2.2.1 : ℚ) * 100)
  else "N/A"

/-- The elevated resource-summary block of `cluster-status` (lines 488–507). -/
def resourceSummary (nodes : List NodeRec) : String :=
  "**Resource Usage**:\n" ++
  "• CPU: " ++ cpuPercent nodes ++ "% (" ++ jsToFixed1 (clusterAccum nodes).2.1 ++ "/" ++
    natToStr (clusterAccum nodes).1 ++ " cores)\n" ++
  "• Memory: " ++ memPercent nodes ++ "% (" ++ formatBytes (clusterAccum nodes).2.2.2 ++ "/" ++
    formatBytes (clusterAccum nodes).2.2.1 ++ ")\n\n"

/-- `getClusterStatus` (lines 465–530). The `/cluster/status` response is
fetched when elevated but never used; only the call and the swallowing of
its failure are observable. -/
def getClusterStatus (cfg : Ctx) (B : Backend) : M Payload :=
  M.attempt
    (do
      let nodes ← callApi "GET" "/nodes" B.nodes
      if cfg.allowElevated then
        M.attempt (do let _ ← callApi "GET" "/cluster/status" B.cluster; pure ()) (fun _ => pure ())
      else pure ()
      let onlineNodes := (nodes.filter (fun n => n.status = "online")).length
      let totalNodes := nodes.length
      pure (textPayload (
        "🏗️  **Proxmox Cluster Status**\n\n" ++
        "**Cluster Health**: " ++ (if onlineNodes = totalNodes then "🟢 Healthy" else "🟡 Warning") ++ "\n" ++
        "**Nodes**: " ++ natToStr onlineNodes ++ "/" ++ natToStr totalNodes ++ " online\n\n" ++
        (if cfg.allowElevated then resourceSummary nodes
         else "⚠️  **Limited Information**: Resource usage requires elevated permissions\n\n") ++
        "**Node Details**:\n" ++
        String.join ((List.insertionSort (fun a b => a.node ≤ b.node) nodes).map
          (fun n => (if n.status = "online" then "🟢" else "🔴") ++ " " ++ n.node ++ " - " ++ n.status ++ "\n")))))
    (fun e => pure (textPayload ("❌ **Failed to get cluster status**\n\nError: " ++ e)))

/-! ### Dispatcher (src/index.js lines 182–221) -/

/-- The request arguments the dispatcher forwards; an absent field is JS
`undefined`. -/
structure ToolArgs where
  node : Option String := none
  vmid : Option String := none
  command : Option String := none
  type : Option String := none
deriving DecidableEq

/-- Run a handler from an empty trace; any error becomes the
`Error: <message>` payload (lines 211–220). -/
def runToPayload (m : M Payload) : Payload × List Req :=
  match m [] with
  | (.ok p, t) => (p, t)
  | (.error e, t) => (textPayload ("Error: " ++ e), t)

/-- The names of the catalog's seven operations. -/
def catalogNames : List String :=
  ["proxmox_get_nodes", "proxmox_get_node_status", "proxmox_get_vms",
   "proxmox_get_vm_status", "proxmox_execute_vm_command", "proxmox_get_storage",
   "proxmox_get_cluster_status"]

/-- The `CallToolRequestSchema` handler: dispatch on the operation name with
no argument validation; an unknown name throws `Unknown tool: <name>`, and
every thrown error is formatted as an `Error: ` payload. Returns the payload
together with the backend requests issued. -/
def dispatch (cfg : Ctx) (B : Backend) (name : String) (args : ToolArgs) : Payload × List Req :=
  runToPayload
    (if name = "proxmox_get_nodes" then getNodes B
     else if name = "proxmox_get_node_status" then getNodeStatus cfg B args.node
     else if name = "proxmox_get_vms" then getVMs B args.node args.type
     else if name = "proxmox_get_vm_status" then getVMStatus B args.node args.vmid args.type
     else if name = "proxmox_execute_vm_command" then
       executeVMCommand cfg B args.node args.vmid args.command args.type
     else if name = "proxmox_get_storage" then getStorage B args.node
     else if name = "proxmox_get_cluster_status" then getClusterStatus cfg B
     else M.throwErr ("Unknown tool: " ++ name))

/-! ### Spec-side definitions (written from the spec's words, for comparison
with the embedded source) -/

/-- Spec side: first-occurrence deduplication — keep the head and discard
every later entry with the same key. -/
def specDedup : List StorageEntry → List StorageEntry
  | [] => []
  | x :: xs => x :: specDedup (xs.filter (fun y => decide (storageKey y ≠ storageKey x)))
termination_by l => l.length
decreasing_by
  simp only [List.length_cons, Nat.lt_succ_iff]
  exact List.length_filter_le _ _

/-- Helper for relating the `seen`-set fold to `specDedup`: dedup having
already seen the given keys. -/
def dedupSeen (seen : List String) : List StorageEntry → List StorageEntry
  | [] => []
  | x :: xs =>
    if storageKey x ∈ seen then dedupSeen seen xs
    else x :: dedupSeen (seen ++ [storageKey x]) xs

/-- Spec side: the online nodes. -/
def specOnline (nodes : List NodeRec) : List NodeRec :=
  nodes.filter (fun n => n.status = "online")

/-- Spec side: summed CPU capacity over online nodes. -/
def specTotalCpu (nodes : List NodeRec) : ℕ :=
  ((specOnline nodes).map (fun n => n.maxcpu.getD 0)).sum

/-- Spec side: CPU used = Σ cpu_fraction × maxcpu over online nodes. -/
def specUsedCpu (nodes : List NodeRec) : ℚ :=
  ((specOnline nodes).map (fun n => n.cpu.getD 0 * (n.maxcpu.getD 0 : ℚ))).sum

/-- Spec side: summed memory capacity over online nodes. -/
def specTotalMem (nodes : List NodeRec) : ℕ :=
  ((specOnline nodes).map (fun n => n.maxmem.getD 0)).sum

/-- Spec side: memory used = Σ mem over online nodes. -/
def specUsedMem (nodes : List NodeRec) : ℕ :=
  ((specOnline nodes).map (fun n => n.mem.getD 0)).sum

/-! ### Concrete fixtures for witnesses and counterexamples -/

/-- A benign backend: every endpoint succeeds with an empty or default
response. -/
def B0 : Backend where
  nodes := .good []
  nodeStatus := fun _ => .good {}
  qemu := fun _ => .good []
  lxc := fun _ => .good []
  current := fun _ _ _ => .good { vmid := 1 }
  agentExec := fun _ _ _ => .good {}
  lxcExec := fun _ _ _ => .good none
  storage := fun _ => .good []
  cluster := .good ()

/-- Backend whose `/nodes` endpoint answers HTTP 500 "permission denied". -/
def Bhttp500 : Backend := { B0 with nodes := .http 500 "permission denied" }

/-- The two-online-node scenario of the cluster-status aggregation claim. -/
def scenarioNodes : List NodeRec :=
  [{ node := "node1", status := "online", cpu := some (1/2), maxcpu := some 2,
     mem := some 500, maxmem := some 1000 },
   { node := "node2", status := "online", cpu := some (1/4), maxcpu := some 2,
     mem := some 250, maxmem := some 1000 }]

/-- Backend serving the cluster-status scenario nodes. -/
def B5 : Backend := { B0 with nodes := .good scenarioNodes }

/-- Storage raw entry named "local-a" (counterexample to the dedup-key
claim). -/
def s8a : StorageRaw := { storage := "local-a" }

/-- Storage raw entry named "local". -/
def s8b : StorageRaw := { storage := "local" }

/-- `s8a` gathered from node "b": key "local-a-b". -/
def e8a : StorageEntry := { toStorageRaw := s8a, node := "b" }

/-- `s8b` gathered from node "a-b": also key "local-a-b". -/
def e8b : StorageEntry := { toStorageRaw := s8b, node := "a-b" }

/-- Backend with nodes "b" and "a-b" whose storage listings produce entries
with distinct (name, node) pairs but the same concatenated key. -/
def B8 : Backend :=
  { B0 with
    nodes := .good [{ node := "b", status := "online" }, { node := "a-b", status := "online" }],
    storage := fun n => if n = "b" then .good [s8a] else if n = "a-b" then .good [s8b] else .good [] }

/-! ### Theorems -/

set_option maxRecDepth 100000

/-- `do`-notation bind on `M` is `M.bindM`. -/
@[simp] theorem M.bind_eq {α β : Type} (x : M α) (f : α → M β) : x >>= f = M.bindM x f := rfl

/-- `pure` on `M` is `M.pureM`. -/
@[simp] theorem M.pure_eq {α : Type} (a : α) : (pure a : M α) = M.pureM a := rfl

/-- C9. For every operation name not present in the catalog, dispatching
returns a well-formed Result Payload whose single text element is exactly
`Error: Unknown tool: <name>`, and no backend call is made. -/
theorem C9_unknown_tool (cfg : Ctx) (B : Backend) (args : ToolArgs) (name : String)
    (h : name ∉ catalogNames) :
    dispatch cfg B name args = (textPayload ("Error: Unknown tool: " ++ name), []) := by
  simp only [catalogNames, List.mem_cons, List.not_mem_nil, or_false, not_or] at h
  obtain ⟨h1, h2, h3, h4, h5, h6, h7⟩ := h
  simp [dispatch, h1, h2, h3, h4, h5, h6, h7, runToPayload, M.throwErr]
  have hcat : ("Error: " : String) ++ "Unknown tool: " = "Error: Unknown tool: " := by decide
  rw [← String.append_assoc, hcat]

/-- C9 witness: the unknown name "frobnicate" produces exactly the
`Error: Unknown tool: frobnicate` payload with an empty request trace. -/
theorem C9_unknown_tool_witness :
    dispatch ⟨false⟩ B0 "frobnicate" {} = (textPayload "Error: Unknown tool: frobnicate", []) :=
  C9_unknown_tool ⟨false⟩ B0 {} "frobnicate" (by decide)

/-- C3. When the backend answers `/nodes` with HTTP 500 and body
"permission denied", the `list-nodes` result text is exactly
`Error: Failed to connect to Proxmox: Proxmox API error: 500 - permission denied`
(the dispatcher's `Error: ` prefix around the client's connection-wrapped
HTTP error). -/
theorem C3_http_error_text (cfg : Ctx) (B : Backend) (args : ToolArgs)
    (h : B.nodes = .http 500 "permission denied") :
    (dispatch cfg B "proxmox_get_nodes" args).1 =
      textPayload "Error: Failed to connect to Proxmox: Proxmox API error: 500 - permission denied" := by
  simp [dispatch, getNodes, callApi, h, proxmoxRequest, runToPayload, M.bindM, textPayload]
  decide

/-- C3 witness: the scenario at the concrete backend `Bhttp500`. -/
theorem C3_http_error_text_witness :
    (dispatch ⟨false⟩ Bhttp500 "proxmox_get_nodes" {}).1 =
      textPayload "Error: Failed to connect to Proxmox: Proxmox API error: 500 - permission denied" :=
  C3_http_error_text ⟨false⟩ Bhttp500 {} rfl

/-- C4. With the elevated flag false, `node-status` and `guest-exec` return
their instructional payloads with zero backend calls; `guest-status` and
`list-guests` dispatch identically whether the flag is true or false. -/
theorem C4_gating (cfg : Ctx) (B : Backend) (args : ToolArgs)
    (h : cfg.allowElevated = false) :
    dispatch cfg B "proxmox_get_node_status" args = (textPayload nodeStatusDeniedMsg, []) ∧
    dispatch cfg B "proxmox_execute_vm_command" args = (textPayload (execDeniedMsg args.command), []) ∧
    dispatch { allowElevated := true } B "proxmox_get_vm_status" args =
      dispatch { allowElevated := false } B "proxmox_get_vm_status" args ∧
    dispatch { allowElevated := true } B "proxmox_get_vms" args =
      dispatch { allowElevated := false } B "proxmox_get_vms" args := by
  refine ⟨?_, ?_, rfl, rfl⟩
  · simp [dispatch, getNodeStatus, h, runToPayload, M.pureM]
  · simp [dispatch, executeVMCommand, h, runToPayload, M.pureM]

/-- C4 witness: the gating behaviour at the concrete benign backend. -/
theorem C4_gating_witness :
    dispatch ⟨false⟩ B0 "proxmox_get_node_status" {} = (textPayload nodeStatusDeniedMsg, []) ∧
    dispatch ⟨false⟩ B0 "proxmox_execute_vm_command" {} = (textPayload (execDeniedMsg none), []) ∧
    dispatch { allowElevated := true } B0 "proxmox_get_vm_status" {} =
      dispatch { allowElevated := false } B0 "proxmox_get_vm_status" {} ∧
    dispatch { allowElevated := true } B0 "proxmox_get_vms" {} =
      dispatch { allowElevated := false } B0 "proxmox_get_vms" {} :=
  C4_gating ⟨false⟩ B0 {} rfl

/-- C1 counterexample: with node filter "pve1" and type filter "lxc" the
handler still issues the GET to that node's qemu listing endpoint (first,
in fact), refuting "calls the qemu endpoint only when the type filter is
'qemu' or 'all'". -/
theorem C1_cex :
    (dispatch ⟨false⟩ B0 "proxmox_get_vms" { node := some "pve1", type := some "lxc" }).2 =
      [⟨"GET", "/nodes/pve1/qemu"⟩, ⟨"GET", "/nodes/pve1/lxc"⟩] ∧
    (⟨"GET", "/nodes/pve1/qemu"⟩ : Req) ∈
      (dispatch ⟨false⟩ B0 "proxmox_get_vms" { node := some "pve1", type := some "lxc" }).2 := by
  decide

/-- C1 amended: with a node filter present, `list-guests` always calls both
the node's qemu and lxc listing endpoints, whatever the type filter; the
type filter only selects which results are formatted. -/
theorem C1_amended (cfg : Ctx) (B : Backend) (node : String) (tfArg : Option String)
    (l l' : List VmRec) (hn : node ≠ "") (hq : B.qemu node = .good l)
    (hl : B.lxc node = .good l') :
    (dispatch cfg B "proxmox_get_vms" { node := some node, type := tfArg }).2 =
      [⟨"GET", "/nodes/" ++ node ++ "/qemu"⟩, ⟨"GET", "/nodes/" ++ node ++ "/lxc"⟩] := by
  simp [dispatch, getVMs, truthyS, hn, callApi, hq, hl, proxmoxRequest, runToPayload,
    M.bindM, M.pureM]

/-- C1 amended witness: node filter "pve1" with type filter "lxc" issues
exactly the qemu and lxc listing requests. -/
theorem C1_amended_witness :
    (dispatch ⟨false⟩ B0 "proxmox_get_vms" { node := some "pve1", type := some "lxc" }).2 =
      [⟨"GET", "/nodes/" ++ "pve1" ++ "/qemu"⟩, ⟨"GET", "/nodes/" ++ "pve1" ++ "/lxc"⟩] :=
  C1_amended ⟨false⟩ B0 "pve1" (some "lxc") [] [] (by decide) rfl rfl

/-- C2 counterexample: dispatching `node-status` (elevated) without the
required `node` argument issues the backend call `/nodes/undefined/status` —
no missing-field error payload precedes any backend HTTP call. -/
theorem C2_cex :
    (dispatch ⟨true⟩ B0 "proxmox_get_node_status" {}).2 =
      [⟨"GET", "/nodes/undefined/status"⟩] := by
  decide

/-- C2 amended: the dispatcher performs no required-field validation at all —
a missing required argument is interpolated as the string "undefined" into
the backend path and (subject only to the elevation gate) the backend call
proceeds. -/
theorem C2_amended (cfg : Ctx) (B : Backend) (args : ToolArgs)
    (h : cfg.allowElevated = true) :
    (args.node = none →
      (dispatch cfg B "proxmox_get_node_status" args).2 =
        [⟨"GET", "/nodes/undefined/status"⟩]) ∧
    (args.node = none → args.vmid = none → args.type = none →
      (dispatch cfg B "proxmox_get_vm_status" args).2 =
        [⟨"GET", "/nodes/undefined/qemu/undefined/status/current"⟩]) ∧
    (args.command = none → args.type = none →
      (dispatch cfg B "proxmox_execute_vm_command" args).2 =
        [⟨"POST", "/nodes/" ++ interp args.node ++ "/qemu/" ++ interp args.vmid ++ "/agent/exec"⟩]) := by
  refine ⟨fun hn => ?_, fun hn hv ht => ?_, fun hc ht => ?_⟩
  · rcases hr : proxmoxRequest (B.nodeStatus "undefined") with e | s <;>
      simp [dispatch, getNodeStatus, h, hn, callApi, hr, runToPayload, M.bindM, M.pureM,
        interp]
  · rcases hr : proxmoxRequest (B.current "undefined" "qemu" "undefined") with e | s <;>
      simp [dispatch, getVMStatus, hn, hv, ht, callApi, hr, runToPayload, M.bindM, M.pureM,
        interp]
  · rcases hr : proxmoxRequest
        (B.agentExec (args.node.getD "undefined") (args.vmid.getD "undefined") "undefined") with
      e | s <;>
      simp [dispatch, executeVMCommand, h, hc, ht, callApi, hr, runToPayload, M.bindM, M.pureM,
        M.attempt, interp]

/-- C2 amended witness: all three operations at concrete missing-argument
requests against the benign backend. -/
theorem C2_amended_witness :
    ((({} : ToolArgs).node = none →
      (dispatch ⟨true⟩ B0 "proxmox_get_node_status" {}).2 =
        [⟨"GET", "/nodes/undefined/status"⟩]) ∧
    (({} : ToolArgs).node = none → ({} : ToolArgs).vmid = none → ({} : ToolArgs).type = none →
      (dispatch ⟨true⟩ B0 "proxmox_get_vm_status" {}).2 =
        [⟨"GET", "/nodes/undefined/qemu/undefined/status/current"⟩]) ∧
    (({} : ToolArgs).command = none → ({} : ToolArgs).type = none →
      (dispatch ⟨true⟩ B0 "proxmox_execute_vm_command" {}).2 =
        [⟨"POST", "/nodes/" ++ interp ({} : ToolArgs).node ++ "/qemu/" ++
          interp ({} : ToolArgs).vmid ++ "/agent/exec"⟩])) :=
  C2_amended ⟨true⟩ B0 {} rfl

/-- C7. `formatUptime` floor-divides at each unit boundary (so the rendered
days/hours/minutes undercount the duration by less than one minute) and
renders `<d>d <h>h <m>m` when days > 0, `<h>h <m>m` when only hours > 0, and
`<m>m` otherwise — no seconds component. -/
theorem C7_formatUptime (s : ℕ) :
    (s / 86400) * 86400 + ((s % 86400) / 3600) * 3600 + ((s % 3600) / 60) * 60 ≤ s ∧
    s < (s / 86400) * 86400 + ((s % 86400) / 3600) * 3600 + ((s % 3600) / 60) * 60 + 60 ∧
    (0 < s / 86400 →
      formatUptime s = natToStr (s / 86400) ++ "d " ++ natToStr ((s % 86400) / 3600) ++ "h " ++
        natToStr ((s % 3600) / 60) ++ "m") ∧
    (s / 86400 = 0 → 0 < (s % 86400) / 3600 →
      formatUptime s = natToStr ((s % 86400) / 3600) ++ "h " ++ natToStr ((s % 3600) / 60) ++ "m") ∧
    (s / 86400 = 0 → (s % 86400) / 3600 = 0 →
      formatUptime s = natToStr ((s % 3600) / 60) ++ "m") := by
  refine ⟨by omega, by omega, fun h1 => ?_, fun h1 h2 => ?_, fun h1 h2 => ?_⟩
  · simp [formatUptime, h1]
  · simp [formatUptime, h1, h2]
  · simp [formatUptime, h1, h2]

/-- C7 witness: 90061 s = 1 day 1 hour 1 minute (plus 1 s, dropped). -/
theorem C7_formatUptime_witness :
    formatUptime 90061 = natToStr (90061 / 86400) ++ "d " ++ natToStr ((90061 % 86400) / 3600) ++
      "h " ++ natToStr ((90061 % 3600) / 60) ++ "m" ∧
    (90061 / 86400) * 86400 + ((90061 % 86400) / 3600) * 3600 + ((90061 % 3600) / 60) * 60 ≤ 90061 :=
  ⟨(C7_formatUptime 90061).2.2.1 (by decide), (C7_formatUptime 90061).1⟩

/-- C10. Presence of numeric metric fields is decided by truthiness, so a
field that is exactly 0 formats identically to an absent field: node cpu or
uptime 0 render "N/A", a guest cpu or uptime 0 render "N/A", and a storage
entry with used = 0 or total = 0 drops its usage line, across the three
listing formatters. -/
theorem C10_zero_is_absent :
    (∀ n : NodeRec, nodeBlock { n with cpu := some 0 } = nodeBlock { n with cpu := none }) ∧
    (∀ n : NodeRec, nodeBlock { n with uptime := some 0 } = nodeBlock { n with uptime := none }) ∧
    (∀ tv : TaggedVm, vmBlock { tv with vm := { tv.vm with cpu := some 0 } } =
      vmBlock { tv with vm := { tv.vm with cpu := none } }) ∧
    (∀ tv : TaggedVm, vmBlock { tv with vm := { tv.vm with uptime := some 0 } } =
      vmBlock { tv with vm := { tv.vm with uptime := none } }) ∧
    (∀ s : StorageEntry, storageBlock { s with used := some 0 } =
      storageBlock { s with used := none }) ∧
    (∀ s : StorageEntry, storageBlock { s with total := some 0 } =
      storageBlock { s with total := none }) ∧
    nodeBlock { node := "n1", status := "online", cpu := some 0, uptime := some 0 } =
      "🟢 **n1**\n   • Status: online\n   • Uptime: N/A\n   • CPU: N/A\n   • Memory: N/A\n   • Load: N/A\n\n" := by
  refine ⟨fun n => ?_, fun n => ?_, fun tv => ?_, fun tv => ?_, fun s => ?_, fun s => ?_, ?_⟩
  · simp [nodeBlock, truthyQ]
  · simp [nodeBlock, truthyN]
  · simp [vmBlock, truthyQ]
  · simp [vmBlock, truthyN]
  · simp [storageBlock, truthyN]
  · simp [storageBlock, truthyN]
  · decide

/-- The cluster accumulation fold equals the filtered spec-side sums, for any
initial accumulator. -/
theorem clusterAccum_go (l : List NodeRec) : ∀ a : ℕ × ℚ × ℕ × ℕ,
    List.foldl
      (fun (a : ℕ × ℚ × ℕ × ℕ) n =>
        if n.status = "online" then
          (a.1 + n.maxcpu.getD 0, a.2.1 + n.cpu.getD 0 * (n.maxcpu.getD 0 : ℚ),
           a.2.2.1 + n.maxmem.getD 0, a.2.2.2 + n.mem.getD 0)
        else a) a l =
      (a.1 + specTotalCpu l, a.2.1 + specUsedCpu l, a.2.2.1 + specTotalMem l,
       a.2.2.2 + specUsedMem l) := by
  induction l with
  | nil =>
    intro a
    simp [specTotalCpu, specUsedCpu, specTotalMem, specUsedMem, specOnline]
  | cons n l ih =>
    intro a
    by_cases h : n.status = "online"
    · simp only [List.foldl_cons, h, if_pos, if_neg, ih, specTotalCpu, specUsedCpu,
        specTotalMem, specUsedMem, specOnline, List.filter_cons, decide_eq_true_eq,
        if_true, if_false, List.map_cons, List.sum_cons, not_false_iff, Prod.mk.injEq,
        ite_true, ite_false]
      exact ⟨by omega, by ring, by omega, by omega⟩
    · simp only [List.foldl_cons, h, if_pos, if_neg, ih, specTotalCpu, specUsedCpu,
        specTotalMem, specUsedMem, specOnline, List.filter_cons, decide_eq_true_eq,
        if_true, if_false, List.map_cons, List.sum_cons, not_false_iff, Prod.mk.injEq,
        ite_true, ite_false]

/-- The four cluster accumulators are exactly the spec-side aggregates. -/
theorem clusterAccum_eq (nodes : List NodeRec) :
    clusterAccum nodes =
      (specTotalCpu nodes, specUsedCpu nodes, specTotalMem nodes, specUsedMem nodes) := by
  simpa [clusterAccum] using clusterAccum_go nodes (0, 0, 0, 0)

/-- C5. The elevated cluster-status resource aggregation: CPU used is
Σ cpu×maxcpu and memory used Σ mem over online nodes, each rendered as a
percentage of the summed online capacity to one decimal, "N/A" on zero
capacity; on the two-node scenario both percentages are 37.5 and the whole
resource block renders accordingly. -/
theorem C5_cluster_resources (nodes : List NodeRec) :
    cpuPercent nodes =
      (if 0 < specTotalCpu nodes then
        jsToFixed1 (specUsedCpu nodes / (specTotalCpu nodes : ℚ) * 100) else "N/A") ∧
    memPercent nodes =
      (if 0 < specTotalMem nodes then
        jsToFixed1 ((specUsedMem nodes : ℚ) / (specTotalMem nodes : ℚ) * 100) else "N/A") ∧
    cpuPercent scenarioNodes = "37.5" ∧ memPercent scenarioNodes = "37.5" ∧
    resourceSummary scenarioNodes =
      "**Resource Usage**:\n• CPU: 37.5% (1.5/4 cores)\n• Memory: 37.5% (750 B/1.95 KB)\n\n" := by
  have hacc : clusterAccum scenarioNodes = (4, 3/2, 2000, 750) := by
    simp [clusterAccum, scenarioNodes]
    norm_num
  have hcpu : cpuPercent scenarioNodes = "37.5" := by
    have hv : ((⌊(3/2 : ℚ) / ((4 : ℕ) : ℚ) * 100 * 10 + 1/2⌋ : ℤ)).toNat = 375 := by
      norm_num
      rfl
    simp only [cpuPercent, hacc]
    norm_num
    simp only [jsToFixed1]
    norm_num at hv ⊢
    simp only [hv]
    decide
  have hmem : memPercent scenarioNodes = "37.5" := by
    have hv : ((⌊((750 : ℕ) : ℚ) / ((2000 : ℕ) : ℚ) * 100 * 10 + 1/2⌋ : ℤ)).toNat = 375 := by
      norm_num
      rfl
    simp only [memPercent, hacc]
    norm_num
    simp only [jsToFixed1]
    norm_num at hv ⊢
    simp only [hv]
    decide
  refine ⟨?_, ?_, hcpu, hmem, ?_⟩
  · simp [cpuPercent, clusterAccum_eq]
  · simp [memPercent, clusterAccum_eq]
  · have h15 : jsToFixed1 ((3 : ℚ)/2) = "1.5" := by
      have hv : ((⌊(3/2 : ℚ) * 10 + 1/2⌋ : ℤ)).toNat = 15 := by norm_num; rfl
      simp only [jsToFixed1, hv]
      decide
    have h750 : formatBytes 750 = "750 B" := by
      have hl : log1024 750 = 0 := by decide
      have hr : round2 (((750 : ℕ) : ℚ) / 1024 ^ 0) = 75000 := by
        have : ((⌊((750 : ℕ) : ℚ) / 1024 ^ 0 * 100 + 1/2⌋ : ℤ)).toNat = 75000 := by
          norm_num
          rfl
        simpa [round2] using this
      simp only [formatBytes, hl, hr]
      decide
    have h2000 : formatBytes 2000 = "1.95 KB" := by
      have hl : log1024 2000 = 1 := by decide
      have hr : round2 (((2000 : ℕ) : ℚ) / 1024 ^ 1) = 195 := by
        have : ((⌊((2000 : ℕ) : ℚ) / 1024 ^ 1 * 100 + 1/2⌋ : ℤ)).toNat = 195 := by
          norm_num
          rfl
        simpa [round2] using this
      simp only [formatBytes, hl, hr]
      decide
    simp only [resourceSummary, hacc, hcpu, hmem, h15, h750, h2000]
    decide

/-- The `seen`-set fold of `getStorage` equals `dedupSeen`, for any starting
accumulator. -/
theorem dedup_fold (l : List StorageEntry) : ∀ (acc : List StorageEntry) (seen : List String),
    (l.foldl
      (fun acc s => if storageKey s ∈ acc.2 then acc else (acc.1 ++ [s], acc.2 ++ [storageKey s]))
      (acc, seen)).1 = acc ++ dedupSeen seen l := by
  induction l with
  | nil => intro acc seen; simp [dedupSeen]
  | cons x xs ih =>
    intro acc seen
    by_cases h : storageKey x ∈ seen
    · simp [List.foldl_cons, h, dedupSeen, ih]
    · simp [List.foldl_cons, h, dedupSeen, ih, List.append_assoc]

/-- `dedupSeen` is the spec-side first-occurrence dedup of the entries whose
keys are not yet seen. -/
theorem dedupSeen_spec (l : List StorageEntry) : ∀ seen : List String,
    dedupSeen seen l = specDedup (l.filter (fun y => decide (storageKey y ∉ seen))) := by
  induction l with
  | nil => intro seen; simp [dedupSeen, specDedup]
  | cons x xs ih =>
    intro seen
    by_cases h : storageKey x ∈ seen
    · simp [dedupSeen, h, ih]
    · simp only [dedupSeen, if_neg h]
      rw [ih]
      have hx : (x :: xs).filter (fun y => decide (storageKey y ∉ seen)) =
          x :: xs.filter (fun y => decide (storageKey y ∉ seen)) := by
        simp [h]
      rw [hx, specDedup]
      congr 1
      rw [List.filter_filter]
      apply congrArg
      apply List.filter_congr
      intro y _
      by_cases h1 : storageKey y ∈ seen <;> by_cases h2 : storageKey y = storageKey x <;>
        simp [h1, h2, List.mem_append]

/-- C8 counterexample: nodes "b" and "a-b" serve storages "local-a" and
"local"; the two gathered entries have distinct (name, node) pairs but the
same concatenated key "local-a-b", so only the first survives — the
formatted output has one entry, not one per distinct pair. -/
theorem C8_cex :
    (dispatch ⟨false⟩ B8 "proxmox_get_storage" {}).1 =
      textPayload "💾 **Storage Pools**\n\n🔴 **local-a**\n   • Node: b\n   • Type: N/A\n   • Content: N/A\n   • Status: Disabled\n\n" ∧
    dedupStorages [e8a, e8b] = [e8a] ∧
    ¬(e8a.storage = e8b.storage ∧ e8a.node = e8b.node) := by
  refine ⟨by decide, by decide, by decide⟩

/-- C8 amended: `list-storage` deduplicates by the concatenated key
`name ++ "-" ++ node` — first occurrence in gathering order wins, so distinct
(name, node) pairs with equal concatenations are conflated — and the kept
entries are sorted by storage name. -/
theorem C8_amended (gathered : List StorageEntry) :
    dedupStorages gathered = specDedup gathered ∧
    (sortStorages (dedupStorages gathered)).Perm (specDedup gathered) ∧
    (sortStorages (dedupStorages gathered)).Pairwise (fun a b => a.storage ≤ b.storage) := by
  have hd : dedupStorages gathered = specDedup gathered := by
    have h1 := dedup_fold gathered [] []
    have h2 : dedupSeen [] gathered = specDedup gathered := by
      simpa using dedupSeen_spec gathered []
    rw [dedupStorages, h1, h2]
    simp
  haveI : IsTotal StorageEntry (fun a b => a.storage ≤ b.storage) :=
    ⟨fun a b => le_total a.storage b.storage⟩
  haveI : IsTrans StorageEntry (fun a b => a.storage ≤ b.storage) :=
    ⟨fun _ _ _ hab hbc => le_trans hab hbc⟩
  exact ⟨hd, hd ▸ List.perm_insertionSort _ _, List.sorted_insertionSort _ _⟩

/-- Digit characters have the right numeric value. -/
theorem charVal_digitChar : ∀ d, d < 10 → charVal (digitChar d) = d := by decide

/-- Digit characters are not the decimal point. -/
theorem digitChar_ne_dot : ∀ d, d < 10 → digitChar d ≠ '.' := by decide

/-- A nonzero digit does not render as '0'. -/
theorem digitChar_ne_zero : ∀ d, d < 10 → d ≠ 0 → digitChar d ≠ '0' := by decide

/-- Parsing consumes a rendered integer: the accumulator picks up its value. -/
theorem intFrac_natCharsAux (n : ℕ) : ∀ (f : ℕ) (a : ℚ) (t : List Char), n < f →
    intFrac a (natCharsAux f n ++ t) =
      intFrac (a * 10 ^ (natCharsAux f n).length + n) t := by
  induction n using Nat.strong_induction_on with
  | _ n ih =>
    intro f a t hf
    obtain ⟨g, rfl⟩ : ∃ g, f = g + 1 := ⟨f - 1, by omega⟩
    by_cases h : n < 10
    · simp only [natCharsAux, if_pos h, List.singleton_append, List.length_singleton]
      simp only [intFrac]
      rw [if_neg (digitChar_ne_dot n h), charVal_digitChar n h]
      congr 1
      ring
    · simp only [natCharsAux, if_neg h]
      rw [List.append_assoc]
      rw [ih (n / 10) (by omega) g a _ (by omega)]
      simp only [List.singleton_append, intFrac]
      rw [if_neg (digitChar_ne_dot _ (by omega)), charVal_digitChar _ (by omega)]
      congr 1
      have hn : ((n : ℚ)) = 10 * ((n / 10 : ℕ) : ℚ) + ((n % 10 : ℕ) : ℚ) := by
        exact_mod_cast (Nat.div_add_mod n 10).symm
      simp only [List.length_append, List.length_singleton]
      rw [hn]
      ring

/-- Parsing consumes `natChars n`. -/
theorem intFrac_natChars (n : ℕ) (a : ℚ) (t : List Char) :
    intFrac a (natChars n ++ t) = intFrac (a * 10 ^ (natChars n).length + n) t :=
  intFrac_natCharsAux n (n + 1) a t (by omega)

/-- One-digit rendering. -/
theorem natChars_single (d : ℕ) (hd : d < 10) : natChars d = [digitChar d] := by
  simp [natChars, natCharsAux, hd]

/-- Two-digit rendering. -/
theorem natChars_two (f : ℕ) (h10 : 10 ≤ f) (h100 : f < 100) :
    natChars f = [digitChar (f / 10), digitChar (f % 10)] := by
  obtain ⟨g, rfl⟩ : ∃ g, f = g + 1 := ⟨f - 1, by omega⟩
  simp [natChars, natCharsAux, show ¬g + 1 < 10 by omega, show (g + 1) / 10 < 10 by omega]

/-- `charVal '0' = 0`. -/
theorem charVal_zero : charVal '0' = 0 := by decide

/-- The stripped decimal rendering of `n/100` parses back to exactly `n/100`. -/
theorem parse_renderCenti (n : ℕ) : parseDec (renderCenti n) = (n : ℚ) / 100 := by
  have hq : (n : ℚ) = 100 * ((n / 100 : ℕ) : ℚ) + ((n % 100 : ℕ) : ℚ) := by
    exact_mod_cast (Nat.div_add_mod n 100).symm
  show intFrac 0 (renderCentiChars n) = (n : ℚ) / 100
  by_cases hf : n % 100 = 0
  · have hchars : renderCentiChars n = natChars (n / 100) := by
      simp [renderCentiChars, hf]
    rw [hchars, ← List.append_nil (natChars (n / 100)), intFrac_natChars]
    simp only [intFrac, zero_mul, zero_add]
    rw [eq_div_iff (by norm_num : (100 : ℚ) ≠ 0), hq, hf]
    push_cast
    ring
  · by_cases hf10 : n % 100 % 10 = 0
    · have hlt : n % 100 / 10 < 10 := by omega
      have hchars : renderCentiChars n = natChars (n / 100) ++ '.' :: natChars (n % 100 / 10) := by
        simp [renderCentiChars, hf, hf10]
      rw [hchars, intFrac_natChars, natChars_single _ hlt]
      simp only [intFrac, fracVal, zero_mul, zero_add, if_true]
      rw [charVal_digitChar _ hlt]
      have hm : ((n % 100 : ℕ) : ℚ) = 10 * ((n % 100 / 10 : ℕ) : ℚ) := by
        exact_mod_cast (show 10 * (n % 100 / 10) = n % 100 by omega).symm
      rw [eq_div_iff (by norm_num : (100 : ℚ) ≠ 0), hq, hm]
      ring
    · by_cases hsmall : n % 100 < 10
      · have hchars : renderCentiChars n =
            natChars (n / 100) ++ '.' :: ('0' :: natChars (n % 100)) := by
          simp [renderCentiChars, hf, hf10, twoDigits, hsmall, natToStr]
        rw [hchars, intFrac_natChars, natChars_single _ hsmall]
        simp only [intFrac, fracVal, zero_mul, zero_add, if_true]
        rw [charVal_zero, charVal_digitChar _ hsmall]
        rw [eq_div_iff (by norm_num : (100 : ℚ) ≠ 0), hq]
        push_cast
        ring
      · have h10 : 10 ≤ n % 100 := by omega
        have h100 : n % 100 < 100 := by omega
        have hchars : renderCentiChars n = natChars (n / 100) ++ '.' ::
            (digitChar (n % 100 / 10) :: [digitChar (n % 100 % 10)]) := by
          simp [renderCentiChars, hf, hf10, twoDigits, show ¬n % 100 < 10 by omega, natToStr,
            natChars_two _ h10 h100]
        rw [hchars, intFrac_natChars]
        simp only [intFrac, fracVal, zero_mul, zero_add, if_true]
        rw [charVal_digitChar _ (by omega), charVal_digitChar _ (by omega)]
        have hm : ((n % 100 : ℕ) : ℚ) =
            10 * ((n % 100 / 10 : ℕ) : ℚ) + ((n % 100 % 10 : ℕ) : ℚ) := by
          exact_mod_cast (Nat.div_add_mod (n % 100) 10).symm
        rw [eq_div_iff (by norm_num : (100 : ℚ) ≠ 0), hq, hm]
        ring

/-- The rounded hundredths value is within 1/100 of the exact value. -/
theorem round2_close (x : ℚ) (hx : 0 ≤ x) :
    |((round2 x : ℕ) : ℚ) / 100 - x| ≤ 1 / 100 := by
  have h0 : (0 : ℤ) ≤ ⌊x * 100 + 1 / 2⌋ := by
    apply Int.floor_nonneg.mpr
    linarith
  have hcast : ((round2 x : ℕ) : ℚ) = ((⌊x * 100 + 1 / 2⌋ : ℤ) : ℚ) := by
    rw [round2]
    exact_mod_cast Int.toNat_of_nonneg h0
  have hle : ((⌊x * 100 + 1 / 2⌋ : ℤ) : ℚ) ≤ x * 100 + 1 / 2 := Int.floor_le _
  have hgt : x * 100 + 1 / 2 - 1 < ((⌊x * 100 + 1 / 2⌋ : ℤ) : ℚ) := Int.sub_one_lt_floor _
  rw [hcast, abs_le]
  constructor <;> linarith

/-- The fuel-driven base-1024 logarithm is the floor logarithm. -/
theorem log1024Aux_eq : ∀ (f i b : ℕ), 1024 ^ i ≤ b → b < 1024 ^ (i + 1) → i ≤ f →
    log1024Aux f b = i := by
  intro f
  induction f with
  | zero =>
    intro i b _ _ hif
    obtain rfl : i = 0 := by omega
    rfl
  | succ f ih =>
    intro i b h1 h2 hif
    by_cases hb : b < 1024
    · obtain rfl : i = 0 := by
        by_contra h
        have hi1 : 1 ≤ i := by omega
        have hp : (1024 : ℕ) ^ 1 ≤ 1024 ^ i := Nat.pow_le_pow_right (by norm_num) hi1
        have : 1024 ≤ b := le_trans (by simpa using hp) h1
        omega
      simp [log1024Aux, hb]
    · obtain ⟨j, rfl⟩ : ∃ j, i = j + 1 := by
        refine ⟨i - 1, ?_⟩
        have : i ≠ 0 := by
          rintro rfl
          rw [pow_one] at h2
          omega
        omega
      have hj1 : 1024 ^ j ≤ b / 1024 := by
        rw [Nat.le_div_iff_mul_le (by norm_num)]
        calc 1024 ^ j * 1024 = 1024 ^ (j + 1) := by rw [pow_succ]
        _ ≤ b := h1
      have hj2 : b / 1024 < 1024 ^ (j + 1) := by
        rw [Nat.div_lt_iff_lt_mul (by norm_num)]
        calc b < 1024 ^ (j + 1 + 1) := h2
        _ = 1024 ^ (j + 1) * 1024 := by rw [pow_succ]
      simp [log1024Aux, hb, ih j (b / 1024) hj1 hj2 (by omega)]

/-- `log1024` computes the floor base-1024 logarithm. -/
theorem log1024_eq (b i : ℕ) (h1 : 1024 ^ i ≤ b) (h2 : b < 1024 ^ (i + 1)) :
    log1024 b = i := by
  have hi : i ≤ b := by
    have t1 : i < 2 ^ i := Nat.lt_two_pow i
    have t2 : 2 ^ i ≤ 1024 ^ i := Nat.pow_le_pow_left (by norm_num) i
    omega
  exact log1024Aux_eq b i b h1 h2 hi

/-- When the rounded value has a fractional part, its stripped rendering does
not end in '0': the rounding's own trailing zeros are gone. -/
theorem getLast?_renderCenti (n : ℕ) (h : n % 100 ≠ 0) :
    (renderCentiChars n).getLast? ≠ some '0' := by
  by_cases hf10 : n % 100 % 10 = 0
  · have hlt : n % 100 / 10 < 10 := by omega
    have hne : n % 100 / 10 ≠ 0 := by omega
    have hchars : renderCentiChars n = (natChars (n / 100) ++ ['.']) ++ [digitChar (n % 100 / 10)] := by
      simp [renderCentiChars, h, hf10, natChars_single _ hlt]
    rw [hchars, List.getLast?_concat]
    simp [digitChar_ne_zero _ hlt hne]
  · by_cases hsmall : n % 100 < 10
    · have hne : n % 100 ≠ 0 := by omega
      have hchars : renderCentiChars n =
          (natChars (n / 100) ++ ['.', '0']) ++ [digitChar (n % 100)] := by
        simp [renderCentiChars, h, hf10, twoDigits, hsmall, natToStr, natChars_single _ hsmall]
      rw [hchars, List.getLast?_concat]
      simp [digitChar_ne_zero _ hsmall hne]
    · have h10 : 10 ≤ n % 100 := by omega
      have h100 : n % 100 < 100 := by omega
      have hchars : renderCentiChars n =
          (natChars (n / 100) ++ ['.', digitChar (n % 100 / 10)]) ++ [digitChar (n % 100 % 10)] := by
        simp [renderCentiChars, h, hf10, twoDigits, show ¬n % 100 < 10 by omega, natToStr,
          natChars_two _ h10 h100]
      rw [hchars, List.getLast?_concat]
      simp [digitChar_ne_zero _ (by omega) hf10]

/-- C6. For a nonzero byte count with unit index `i = ⌊log₁₀₂₄ b⌋ ≤ 4`,
`formatBytes b` is the stripped two-decimal rendering of `b / 1024^i`, one
space, and the unit at index `i`; the rendering parses back to exactly the
rounded value, which is within 0.01 of `b / 1024^i`, and carries no trailing
zero artifact; and `formatBytes 0 = "0 B"`. -/
theorem C6_formatBytes (b i : ℕ) (h1 : 1024 ^ i ≤ b) (h2 : b < 1024 ^ (i + 1)) (_hi4 : i ≤ 4) :
    formatBytes b =
      renderCenti (round2 ((b : ℚ) / 1024 ^ i)) ++ " " ++ byteSizes.getD i "undefined" ∧
    parseDec (renderCenti (round2 ((b : ℚ) / 1024 ^ i))) =
      ((round2 ((b : ℚ) / 1024 ^ i) : ℕ) : ℚ) / 100 ∧
    |((round2 ((b : ℚ) / 1024 ^ i) : ℕ) : ℚ) / 100 - (b : ℚ) / 1024 ^ i| ≤ 1 / 100 ∧
    (round2 ((b : ℚ) / 1024 ^ i) % 100 ≠ 0 →
      (renderCenti (round2 ((b : ℚ) / 1024 ^ i))).data.getLast? ≠ some '0') ∧
    formatBytes 0 = "0 B" := by
  have hb0 : b ≠ 0 := by
    have : 0 < 1024 ^ i := pow_pos (by norm_num) i
    omega
  have hlog : log1024 b = i := log1024_eq b i h1 h2
  refine ⟨?_, parse_renderCenti _, round2_close _ (by positivity), fun hmod => ?_, rfl⟩
  · simp [formatBytes, hb0, hlog]
  · exact getLast?_renderCenti _ hmod

/-- C6 witness: b = 1536 with unit index 1 — "1.5 KB". -/
theorem C6_formatBytes_witness :
    1024 ^ 1 ≤ 1536 ∧ 1536 < 1024 ^ (1 + 1) ∧
    (formatBytes 1536 =
        renderCenti (round2 (((1536 : ℕ) : ℚ) / 1024 ^ 1)) ++ " " ++ byteSizes.getD 1 "undefined" ∧
      parseDec (renderCenti (round2 (((1536 : ℕ) : ℚ) / 1024 ^ 1))) =
        ((round2 (((1536 : ℕ) : ℚ) / 1024 ^ 1) : ℕ) : ℚ) / 100 ∧
      |((round2 (((1536 : ℕ) : ℚ) / 1024 ^ 1) : ℕ) : ℚ) / 100 - ((1536 : ℕ) : ℚ) / 1024 ^ 1| ≤ 1 / 100 ∧
      (round2 (((1536 : ℕ) : ℚ) / 1024 ^ 1) % 100 ≠ 0 →
        (renderCenti (round2 (((1536 : ℕ) : ℚ) / 1024 ^ 1))).data.getLast? ≠ some '0') ∧
      formatBytes 0 = "0 B") :=
  ⟨by norm_num, by norm_num, C6_formatBytes 1536 1 (by norm_num) (by norm_num) (by norm_num)⟩
